import Mathlib

/-!
Verification development for `subscription_bot.py`, a Telegram bot that
gates delivery of a configured piece of material behind membership in a
target chat.  The two functions with logic are `load_config` (environment
validation) and `get_material` (the `/get` handler).  Both are shallowly
embedded below; the transport (`get_chat_member`, `send_message`,
`send_document`) and the filesystem are modelled by an explicit `World`
record describing the outcome each external call would have, and the
handler is interpreted into a trace of attempted send operations together
with log counters and a flag recording whether an exception escaped the
handler.
-/

namespace SubscriptionBot

/-- The membership statuses a Telegram `ChatMember.status` field can carry.
`other s` stands for any value outside the six documented ones, so that
the handler's behaviour on unrecognized statuses can be quantified over. -/
inductive MemberStatus where
  | owner
  | administrator
  | member
  | restricted
  | leftChat
  | banned
  | other (s : String)
deriving DecidableEq, Repr

/-- Python truthiness of an optional string (`None` and `""` are falsy,
everything else truthy).  `load_config` and `get_material` test options
with bare `if x:` checks, which this mirrors. -/
def truthy : Option String → Bool
  | none => false
  | some s => !s.isEmpty

/-- Python `a or dflt` for an optional string `a` and a string default:
yields the wrapped string when it is truthy, the default otherwise. -/
def pyOrDefault (a : Option String) (dflt : String) : String :=
  match a with
  | none => dflt
  | some s => if s.isEmpty then dflt else s

/-- Python `a or None` for an optional string: collapses `Some ""` to
`none` (used for the `caption=material_text or None` argument). -/
def pyOrNone (a : Option String) : Option String :=
  match a with
  | none => none
  | some s => if s.isEmpty then none else some s

/-- The configuration record produced by `load_config` and read by the
handlers (the dict keys `token`, `target_chat_id`, `material_text`,
`material_file_path`, `channel_invite_link`). `target_chat_id` is an
integer when the environment string parses as one, otherwise the raw
string (e.g. `@channel_username`). -/
structure Config where
  token : String
  target_chat_id : Sum Int String
  material_text : Option String
  material_file_path : Option String
  channel_invite_link : Option String
deriving DecidableEq, Repr

/-- The five environment variables `load_config` reads via `os.getenv`
(`none` = variable unset, `some ""` = set to the empty string). -/
structure Env where
  telegram_bot_token : Option String
  target_chat_id : Option String
  material_text : Option String
  material_file_path : Option String
  channel_invite_link : Option String
deriving DecidableEq, Repr

/-- `RuntimeError` message for a missing bot token (line 102). -/
def errTokenMissing : String :=
  "TELEGRAM_BOT_TOKEN must be set as an environment variable or in .env"

/-- `RuntimeError` message for a missing target chat id (line 106). -/
def errTargetMissing : String :=
  "TARGET_CHAT_ID must be set as an environment variable or in .env"

/-- `RuntimeError` message for missing material (line 110). -/
def errMaterialMissing : String :=
  "Either MATERIAL_TEXT or MATERIAL_FILE_PATH must be set to deliver material"

/-- Embedding of `load_config` (subscription_bot.py lines 77-128).  A
`RuntimeError` is modelled as `Except.error` carrying the message.  The
three `if not ...: raise` checks are Python falsiness checks, hence
`truthy`.  The `int(...)` conversion that is attempted on
`target_chat_id` (falling back to the raw string on `ValueError`) is
rendered with `String.toInt?`; the `Path(...).expanduser()` normalization
of `material_file_path` depends on the process environment and is kept as
the raw string, which no claim depends on. -/
def load_config (env : Env) : Except String Config :=
  if !truthy env.telegram_bot_token then
    .error errTokenMissing
  else if !truthy env.target_chat_id then
    .error errTargetMissing
  else if !(truthy env.material_text || truthy env.material_file_path) then
    .error errMaterialMissing
  else
    .ok
      { token := env.telegram_bot_token.getD ""
        target_chat_id :=
          match (env.target_chat_id.getD "").toInt? with
          | some n => .inl n
          | none => .inr (env.target_chat_id.getD "")
        material_text := env.material_text
        material_file_path := env.material_file_path
        channel_invite_link := env.channel_invite_link }

/-- Membership test of `get_material` (lines 162-167): `status in
[ChatMemberStatus.MEMBER, ChatMemberStatus.ADMINISTRATOR,
ChatMemberStatus.OWNER, CREATOR-if-present-else-None]`.  In the v20 API
`ChatMemberStatus` has no `CREATOR` attribute (its value would anyway
coincide with `OWNER`'s `"creator"`), so the fourth list element is
`None`, which no status string equals.  The authorized set is therefore
exactly {member, administrator, owner}. -/
def isAuthorized : MemberStatus → Bool
  | .member => true
  | .administrator => true
  | .owner => true
  | _ => false

/-- `Path.name` of the material file path: the final path component
(after the last `/`), used as the `filename=` argument of
`send_document`. -/
def pathName (s : String) : String :=
  (s.splitOn "/").getLastD ""

/-- Caption text of the error message sent when `send_document` fails
(line 183). -/
def docFailText : String :=
  "Произошла ошибка при отправке файла. Попробуйте позже."

/-- Default material text used when `material_text` is falsy in the
authorized plain-text branch (line 189). -/
def defaultMaterialText : String :=
  "Спасибо за подписку! Вот ваш материал."

/-- Base text of the not-subscribed prompt (lines 193-195). -/
def notSubscribedBase : String :=
  "Чтобы получить материал, пожалуйста, подпишитесь на канал."

/-- Base text of the membership-check-failure reply (lines 206-208). -/
def cannotVerifyBase : String :=
  "Не удалось проверить вашу подписку. Возможно, вы не подписаны на канал."

/-- `reply += f"\n{channel_invite_link}"` guarded by `if
channel_invite_link:`: append the invite link on a new line when it is
truthy, otherwise leave the base text untouched. -/
def withInviteLink (base : String) (link : Option String) : String :=
  if truthy link then base ++ "\n" ++ link.getD "" else base

/-- One transport send primitive invocation: `send_document(chat_id,
document, filename, caption)` or `send_message(chat_id, text)`. -/
inductive SendOp where
  | document (chat_id : Int) (filename : String) (caption : Option String)
  | message (chat_id : Int) (text : String)
deriving DecidableEq, Repr

/-- A send primitive invocation together with whether it succeeded
(`ok = false` means the call raised). -/
structure Attempt where
  op : SendOp
  ok : Bool
deriving DecidableEq, Repr

/-- Observable result of one run of `get_material`: the attempted sends
in order, the number of `logger.warning` and `logger.exception` calls,
and whether an exception escaped the handler. -/
structure RunResult where
  trace : List Attempt
  warnings : Nat
  exceptions : Nat
  raised : Bool
deriving DecidableEq, Repr

/-- Behaviour of the external world during one run: the outcome of the
`get_chat_member` call (`Except.error` = the call raised, carrying the
exception text), whether `material_file_path.exists()` holds, whether the
open-and-`send_document` block succeeds, and a success schedule for the
successive `send_message` calls (exhausted schedule entries default to
success). -/
structure World where
  memberResult : Except String MemberStatus
  fileExists : Bool
  docSendOk : Bool
  msgSendOk : List Bool
deriving Repr

/-- Pop the outcome of the next `send_message` call from the schedule
(an exhausted schedule means the call succeeds). -/
def nextOk : List Bool → Bool × List Bool
  | [] => (true, [])
  | b :: bs => (b, bs)

/-- The `except Exception` handler at the bottom of `get_material`
(lines 203-214): log a warning, build the cannot-verify reply (with the
invite link when configured) and attempt to send it.  This send is not
itself protected, so its failure escapes the handler (`raised`).
`tr`, `warns`, `excs` are the trace and log counters accumulated before
the exception reached the handler. -/
def outerHandler (user_id : Int) (link : Option String) (tr : List Attempt)
    (warns excs : Nat) (sched : List Bool) : RunResult :=
  let reply := withInviteLink cannotVerifyBase link
  let ok := (nextOk sched).1
  { trace := tr ++ [⟨.message user_id reply, ok⟩]
    warnings := warns + 1
    exceptions := excs
    raised := !ok }

/-- Embedding of the `/get` handler `get_material` (lines 140-214).
The body is one big `try`: the membership query, the authorized branches
(file with its own inner `try`, else plain text) and the not-subscribed
branch; any exception raised inside — including by the reply sends
themselves — falls through to `outerHandler`.  A failed send records its
attempt with `ok = false` and raises. -/
def get_material (cfg : Config) (user_id : Int) (w : World) : RunResult :=
  let material_text := cfg.material_text
  let material_file_path := cfg.material_file_path
  let channel_invite_link := cfg.channel_invite_link
  match w.memberResult with
  | .error _ =>
      -- get_chat_member raised: caught by the outer except handler.
      outerHandler user_id channel_invite_link [] 0 0 w.msgSendOk
  | .ok status =>
    if isAuthorized status then
      if truthy material_file_path && w.fileExists then
        let docOp : SendOp :=
          .document user_id (pathName (material_file_path.getD ""))
            (pyOrNone material_text)
        if w.docSendOk then
          { trace := [⟨docOp, true⟩], warnings := 0, exceptions := 0,
            raised := false }
        else
          -- inner except (lines 179-184): logger.exception, then send
          -- the file-error message; if that send also raises, the outer
          -- handler catches it.
          let (ok1, rest) := nextOk w.msgSendOk
          if ok1 then
            { trace := [⟨docOp, false⟩, ⟨.message user_id docFailText, true⟩],
              warnings := 0, exceptions := 1, raised := false }
          else
            outerHandler user_id channel_invite_link
              [⟨docOp, false⟩, ⟨.message user_id docFailText, false⟩] 0 1 rest
      else
        -- authorized, no (existing) file: send material_text or default.
        let text := pyOrDefault material_text defaultMaterialText
        let (ok1, rest) := nextOk w.msgSendOk
        if ok1 then
          { trace := [⟨.message user_id text, true⟩], warnings := 0,
            exceptions := 0, raised := false }
        else
          outerHandler user_id channel_invite_link
            [⟨.message user_id text, false⟩] 0 0 rest
    else
      -- not subscribed: prompt, with the invite link when configured.
      let reply := withInviteLink notSubscribedBase channel_invite_link
      let (ok1, rest) := nextOk w.msgSendOk
      if ok1 then
        { trace := [⟨.message user_id reply, true⟩], warnings := 0,
          exceptions := 0, raised := false }
      else
        outerHandler user_id channel_invite_link
          [⟨.message user_id reply, false⟩] 0 0 rest

/-- Head of an all-success schedule succeeds. -/
theorem nextOk_fst_of_all (l : List Bool) (h : ∀ b ∈ l, b = true) :
    (nextOk l).1 = true := by
  cases l with
  | nil => rfl
  | cons b bs => exact h b (List.mem_cons_self b bs)

/-- Sample configuration used by witnesses: text material, invite link
configured, no file. -/
def cfgText : Config :=
  { token := "123456:ABCDEF"
    target_chat_id := .inl (-100123)
    material_text := some "Thanks!"
    material_file_path := none
    channel_invite_link := some "https://t.me/x" }

/-- Sample configuration used by witnesses: file material with caption
text, no invite link. -/
def cfgFile : Config :=
  { token := "123456:ABCDEF"
    target_chat_id := .inr "@channel_username"
    material_text := some "caption"
    material_file_path := some "materials/guide.pdf"
    channel_invite_link := none }

/-- Claim C1: for every membership status outside the authorized set
{owner, administrator, member} — left, banned, restricted or any
unrecognized value — the handler never attempts to send the material
(every attempted send is one of the two prompt texts), and, when the
message transport delivers replies, it returns normally (never throws)
having sent exactly the subscription prompt. -/
theorem C1_fail_closed (cfg : Config) (uid : Int) (w : World)
    (st : MemberStatus) (hm : w.memberResult = .ok st)
    (hauth : isAuthorized st = false) :
    (∀ a ∈ (get_material cfg uid w).trace,
        a.op = .message uid (withInviteLink notSubscribedBase cfg.channel_invite_link) ∨
        a.op = .message uid (withInviteLink cannotVerifyBase cfg.channel_invite_link)) ∧
    ((∀ b ∈ w.msgSendOk, b = true) →
      get_material cfg uid w =
        { trace := [⟨.message uid (withInviteLink notSubscribedBase cfg.channel_invite_link), true⟩]
          warnings := 0, exceptions := 0, raised := false }) := by
  constructor
  · intro a ha
    rcases hL : w.msgSendOk with _ | ⟨b, bs⟩
    · simp [get_material, hm, hauth, hL, nextOk] at ha
      simp [ha]
    · cases b <;>
        simp [get_material, hm, hauth, hL, nextOk, outerHandler] at ha
      · rcases ha with h | h <;> simp [h]
      · simp [ha]
  · intro hs
    rcases hL : w.msgSendOk with _ | ⟨b, bs⟩
    · simp [get_material, hm, hauth, hL, nextOk]
    · have hb : b = true := hs b (by rw [hL]; exact List.mem_cons_self b bs)
      subst hb
      simp [get_material, hm, hauth, hL, nextOk]

/-- Witness for C1 at status `leftChat` under the sample text
configuration: the run sends exactly the prompt with the invite link. -/
theorem C1_fail_closed_witness :
    get_material cfgText 7
        { memberResult := .ok .leftChat, fileExists := false,
          docSendOk := true, msgSendOk := [true] } =
      { trace := [⟨.message 7 (withInviteLink notSubscribedBase cfgText.channel_invite_link), true⟩]
        warnings := 0, exceptions := 0, raised := false } :=
  (C1_fail_closed cfgText 7
      { memberResult := .ok .leftChat, fileExists := false,
        docSendOk := true, msgSendOk := [true] }
      .leftChat rfl rfl).2 (by decide)

/-- Claim C2: for every authorized status (owner, administrator, member),
with a working transport, the handler performs exactly one send — the
document when a material file is configured and exists, otherwise one
plain message carrying the material text (or its default) — returns
normally, and never both nor zero sends. -/
theorem C2_authorized_single_send (cfg : Config) (uid : Int) (w : World)
    (st : MemberStatus) (hm : w.memberResult = .ok st)
    (hauth : isAuthorized st = true) (hd : w.docSendOk = true)
    (hs : ∀ b ∈ w.msgSendOk, b = true) :
    (get_material cfg uid w).trace.length = 1 ∧
    get_material cfg uid w =
      (if truthy cfg.material_file_path && w.fileExists then
        { trace := [⟨.document uid (pathName (cfg.material_file_path.getD ""))
              (pyOrNone cfg.material_text), true⟩]
          warnings := 0, exceptions := 0, raised := false }
      else
        { trace := [⟨.message uid (pyOrDefault cfg.material_text defaultMaterialText), true⟩]
          warnings := 0, exceptions := 0, raised := false }) := by
  have hmain : get_material cfg uid w =
      (if truthy cfg.material_file_path && w.fileExists then
        { trace := [⟨.document uid (pathName (cfg.material_file_path.getD ""))
              (pyOrNone cfg.material_text), true⟩]
          warnings := 0, exceptions := 0, raised := false }
      else
        { trace := [⟨.message uid (pyOrDefault cfg.material_text defaultMaterialText), true⟩]
          warnings := 0, exceptions := 0, raised := false }) := by
    rcases hL : w.msgSendOk with _ | ⟨b, bs⟩
    · simp [get_material, hm, hauth, hd, hL, nextOk]
    · have hb : b = true := hs b (by rw [hL]; exact List.mem_cons_self b bs)
      subst hb
      simp [get_material, hm, hauth, hd, hL, nextOk]
  refine ⟨?_, hmain⟩
  rw [hmain]
  by_cases hf : (truthy cfg.material_file_path && w.fileExists) = true <;>
    simp [hf]

/-- Witness for C2 at status `member` under the sample file
configuration with the file present: exactly the document send. -/
theorem C2_authorized_single_send_witness :
    (get_material cfgFile 7
        { memberResult := .ok .member, fileExists := true,
          docSendOk := true, msgSendOk := [] }).trace.length = 1 :=
  (C2_authorized_single_send cfgFile 7
      { memberResult := .ok .member, fileExists := true,
        docSendOk := true, msgSendOk := [] }
      .member rfl rfl rfl (by decide)).1

/-- Claim C3: when the membership query raises — whatever the error —
the failure is caught: the handler returns normally, logs exactly one
warning, and sends exactly one reply (the cannot-verify text, with the
invite link when configured), given a working message transport. -/
theorem C3_query_failure_caught (cfg : Config) (uid : Int) (w : World)
    (e : String) (hm : w.memberResult = .error e)
    (hs : ∀ b ∈ w.msgSendOk, b = true) :
    get_material cfg uid w =
      { trace := [⟨.message uid (withInviteLink cannotVerifyBase cfg.channel_invite_link), true⟩]
        warnings := 1, exceptions := 0, raised := false } := by
  rcases hL : w.msgSendOk with _ | ⟨b, bs⟩
  · simp [get_material, hm, hL, nextOk, outerHandler]
  · have hb : b = true := hs b (by rw [hL]; exact List.mem_cons_self b bs)
    subst hb
    simp [get_material, hm, hL, nextOk, outerHandler]

/-- Witness for C3 under the sample text configuration and a concrete
transport error string. -/
theorem C3_query_failure_caught_witness :
    get_material cfgText 7
        { memberResult := .error "Bad Request: user not found",
          fileExists := false, docSendOk := true, msgSendOk := [true] } =
      { trace := [⟨.message 7 (withInviteLink cannotVerifyBase cfgText.channel_invite_link), true⟩]
        warnings := 1, exceptions := 0, raised := false } :=
  C3_query_failure_caught cfgText 7
    { memberResult := .error "Bad Request: user not found",
      fileExists := false, docSendOk := true, msgSendOk := [true] }
    "Bad Request: user not found" rfl (by decide)

/-- Run reduction: not-authorized status with a delivering message
transport sends exactly the subscription prompt. -/
theorem run_notAuth (cfg : Config) (uid : Int) (w : World)
    (st : MemberStatus) (hm : w.memberResult = .ok st)
    (hauth : isAuthorized st = false) (hs : ∀ b ∈ w.msgSendOk, b = true) :
    get_material cfg uid w =
      { trace := [⟨.message uid (withInviteLink notSubscribedBase cfg.channel_invite_link), true⟩]
        warnings := 0, exceptions := 0, raised := false } := by
  rcases hL : w.msgSendOk with _ | ⟨b, bs⟩
  · simp [get_material, hm, hauth, hL, nextOk]
  · have hb : b = true := hs b (by rw [hL]; exact List.mem_cons_self b bs)
    subst hb
    simp [get_material, hm, hauth, hL, nextOk]

/-- Run reduction: membership-query failure with a delivering message
transport sends exactly the cannot-verify reply and logs one warning. -/
theorem run_queryError (cfg : Config) (uid : Int) (w : World) (e : String)
    (hm : w.memberResult = .error e) (hs : ∀ b ∈ w.msgSendOk, b = true) :
    get_material cfg uid w =
      { trace := [⟨.message uid (withInviteLink cannotVerifyBase cfg.channel_invite_link), true⟩]
        warnings := 1, exceptions := 0, raised := false } := by
  rcases hL : w.msgSendOk with _ | ⟨b, bs⟩
  · simp [get_material, hm, hL, nextOk, outerHandler]
  · have hb : b = true := hs b (by rw [hL]; exact List.mem_cons_self b bs)
    subst hb
    simp [get_material, hm, hL, nextOk, outerHandler]

/-- Run reduction: authorized status, configured-and-existing file,
successful document send. -/
theorem run_authFile (cfg : Config) (uid : Int) (w : World)
    (st : MemberStatus) (hm : w.memberResult = .ok st)
    (hauth : isAuthorized st = true)
    (hc : (truthy cfg.material_file_path && w.fileExists) = true)
    (hd : w.docSendOk = true) :
    get_material cfg uid w =
      { trace := [⟨.document uid (pathName (cfg.material_file_path.getD ""))
            (pyOrNone cfg.material_text), true⟩]
        warnings := 0, exceptions := 0, raised := false } := by
  simp [get_material, hm, hauth, hc, hd]

/-- Run reduction: authorized status, configured-and-existing file, but
the document send fails; the inner handler logs the exception and sends
the file-error message. -/
theorem run_authFileDocFail (cfg : Config) (uid : Int) (w : World)
    (st : MemberStatus) (hm : w.memberResult = .ok st)
    (hauth : isAuthorized st = true)
    (hc : (truthy cfg.material_file_path && w.fileExists) = true)
    (hd : w.docSendOk = false) (hs : ∀ b ∈ w.msgSendOk, b = true) :
    get_material cfg uid w =
      { trace := [⟨.document uid (pathName (cfg.material_file_path.getD ""))
            (pyOrNone cfg.material_text), false⟩,
          ⟨.message uid docFailText, true⟩]
        warnings := 0, exceptions := 1, raised := false } := by
  rcases hL : w.msgSendOk with _ | ⟨b, bs⟩
  · simp [get_material, hm, hauth, hc, hd, hL, nextOk]
  · have hb : b = true := hs b (by rw [hL]; exact List.mem_cons_self b bs)
    subst hb
    simp [get_material, hm, hauth, hc, hd, hL, nextOk]

/-- Run reduction: authorized status, no configured-and-existing file,
with a delivering message transport: one plain message with the material
text or its default. -/
theorem run_authText (cfg : Config) (uid : Int) (w : World)
    (st : MemberStatus) (hm : w.memberResult = .ok st)
    (hauth : isAuthorized st = true)
    (hc : (truthy cfg.material_file_path && w.fileExists) = false)
    (hs : ∀ b ∈ w.msgSendOk, b = true) :
    get_material cfg uid w =
      { trace := [⟨.message uid (pyOrDefault cfg.material_text defaultMaterialText), true⟩]
        warnings := 0, exceptions := 0, raised := false } := by
  rcases hL : w.msgSendOk with _ | ⟨b, bs⟩
  · simp [get_material, hm, hauth, hc, hL, nextOk]
  · have hb : b = true := hs b (by rw [hL]; exact List.mem_cons_self b bs)
    subst hb
    simp [get_material, hm, hauth, hc, hL, nextOk]

/-- Claim C4: for an authorized user, when a material file is configured
and exists at delivery time, the file is sent (a document, not a plain
message) and the configured material text, when present, is passed as
its caption. -/
theorem C4_file_with_caption (cfg : Config) (uid : Int) (w : World)
    (st : MemberStatus) (hm : w.memberResult = .ok st)
    (hauth : isAuthorized st = true)
    (hf : truthy cfg.material_file_path = true)
    (hex : w.fileExists = true) (hd : w.docSendOk = true) :
    get_material cfg uid w =
      { trace := [⟨.document uid (pathName (cfg.material_file_path.getD ""))
            (pyOrNone cfg.material_text), true⟩]
        warnings := 0, exceptions := 0, raised := false } ∧
    (truthy cfg.material_text = true →
      pyOrNone cfg.material_text = cfg.material_text) := by
  refine ⟨run_authFile cfg uid w st hm hauth (by rw [hf, hex]; rfl) hd, ?_⟩
  intro ht
  cases hmt : cfg.material_text with
  | none => rw [hmt] at ht; simp [truthy] at ht
  | some s =>
      rw [hmt] at ht
      simp only [truthy, Bool.not_eq_true'] at ht
      simp [pyOrNone, ht]

/-- Witness for C4: member status, file configured and present, caption
text configured. -/
theorem C4_file_with_caption_witness :
    get_material cfgFile 7
        { memberResult := .ok .administrator, fileExists := true,
          docSendOk := true, msgSendOk := [] } =
      { trace := [⟨.document 7 (pathName (cfgFile.material_file_path.getD ""))
            (pyOrNone cfgFile.material_text), true⟩]
        warnings := 0, exceptions := 0, raised := false } :=
  (C4_file_with_caption cfgFile 7
      { memberResult := .ok .administrator, fileExists := true,
        docSendOk := true, msgSendOk := [] }
      .administrator rfl rfl rfl rfl rfl).1

/-- Claim C5: for an authorized user, when a material file is configured
but missing at call time, the handler does not raise and falls back to a
plain message: the material text when it is set, and the default
placeholder when the material text is empty or unset — the user always
gets a reply. -/
theorem C5_missing_file_fallback (cfg : Config) (uid : Int) (w : World)
    (st : MemberStatus) (hm : w.memberResult = .ok st)
    (hauth : isAuthorized st = true)
    (_hf : truthy cfg.material_file_path = true)
    (hex : w.fileExists = false) (hs : ∀ b ∈ w.msgSendOk, b = true) :
    get_material cfg uid w =
      { trace := [⟨.message uid (pyOrDefault cfg.material_text defaultMaterialText), true⟩]
        warnings := 0, exceptions := 0, raised := false } ∧
    (∀ s, cfg.material_text = some s → s.isEmpty = false →
      pyOrDefault cfg.material_text defaultMaterialText = s) ∧
    (truthy cfg.material_text = false →
      pyOrDefault cfg.material_text defaultMaterialText = defaultMaterialText) := by
  refine ⟨run_authText cfg uid w st hm hauth (by rw [hex]; simp) hs, ?_, ?_⟩
  · intro s hmt hne
    simp [pyOrDefault, hmt, hne]
  · intro ht
    cases hmt : cfg.material_text with
    | none => simp [pyOrDefault]
    | some s =>
        rw [hmt] at ht
        have hse : s.isEmpty = true := by
          simpa [truthy] using ht
        simp [pyOrDefault, hmt, hse]

/-- Witness for C5: file configured but absent from disk, material text
set; the text is sent as a plain message. -/
theorem C5_missing_file_fallback_witness :
    get_material cfgFile 7
        { memberResult := .ok .member, fileExists := false,
          docSendOk := true, msgSendOk := [true] } =
      { trace := [⟨.message 7 (pyOrDefault cfgFile.material_text defaultMaterialText), true⟩]
        warnings := 0, exceptions := 0, raised := false } :=
  (C5_missing_file_fallback cfgFile 7
      { memberResult := .ok .member, fileExists := false,
        docSendOk := true, msgSendOk := [true] }
      .member rfl rfl rfl rfl (by decide)).1

/-- Claim C6: each not-authorized reply and each query-failed reply
carries the invite link verbatim (appended after a newline, hence the
literal link string occurs in the sent text) when the link is configured,
and is exactly the base text — no placeholder — when it is not. -/
theorem C6_invite_link_in_replies (cfg : Config) (uid : Int) (w : World)
    (hs : ∀ b ∈ w.msgSendOk, b = true) :
    (∀ st, w.memberResult = .ok st → isAuthorized st = false →
      (get_material cfg uid w).trace =
        [⟨.message uid (withInviteLink notSubscribedBase cfg.channel_invite_link), true⟩]) ∧
    (∀ e, w.memberResult = .error e →
      (get_material cfg uid w).trace =
        [⟨.message uid (withInviteLink cannotVerifyBase cfg.channel_invite_link), true⟩]) ∧
    (∀ base, truthy cfg.channel_invite_link = true →
      withInviteLink base cfg.channel_invite_link =
        (base ++ "\n") ++ cfg.channel_invite_link.getD "") ∧
    (∀ base, truthy cfg.channel_invite_link = false →
      withInviteLink base cfg.channel_invite_link = base) := by
  refine ⟨?_, ?_, ?_, ?_⟩
  · intro st hm hauth
    rw [run_notAuth cfg uid w st hm hauth hs]
  · intro e hm
    rw [run_queryError cfg uid w e hm hs]
  · intro base ht
    simp [withInviteLink, ht, String.append_assoc]
  · intro base ht
    simp [withInviteLink, ht]

/-- Witness for C6: a banned user under the sample text configuration;
the prompt trace is produced and the configured link is appended. -/
theorem C6_invite_link_in_replies_witness :
    (get_material cfgText 7
        { memberResult := .ok .banned, fileExists := false,
          docSendOk := true, msgSendOk := [true] }).trace =
      [⟨.message 7 (withInviteLink notSubscribedBase cfgText.channel_invite_link), true⟩] :=
  (C6_invite_link_in_replies cfgText 7
      { memberResult := .ok .banned, fileExists := false,
        docSendOk := true, msgSendOk := [true] }
      (by decide)).1 .banned rfl rfl

/-- Claim C7: whatever the membership query returns (success with any
status, or failure) and whether or not the document send fails, as long
as plain message sends are delivered, every run produces exactly one
successful reply to the user and no exception escapes the handler. -/
theorem C7_exactly_one_reply (cfg : Config) (uid : Int) (w : World)
    (hs : ∀ b ∈ w.msgSendOk, b = true) :
    ((get_material cfg uid w).trace.countP (fun a => a.ok)) = 1 ∧
    (get_material cfg uid w).raised = false := by
  cases hM : w.memberResult with
  | error e =>
      rw [run_queryError cfg uid w e hM hs]
      constructor <;> rfl
  | ok st =>
      by_cases hauth : isAuthorized st = true
      · by_cases hc : (truthy cfg.material_file_path && w.fileExists) = true
        · by_cases hd : w.docSendOk = true
          · rw [run_authFile cfg uid w st hM hauth hc hd]
            constructor <;> rfl
          · rw [run_authFileDocFail cfg uid w st hM hauth hc
              (Bool.not_eq_true _ ▸ hd) hs]
            constructor <;> rfl
        · rw [run_authText cfg uid w st hM hauth (Bool.not_eq_true _ ▸ hc) hs]
          constructor <;> rfl
      · rw [run_notAuth cfg uid w st hM (Bool.not_eq_true _ ▸ hauth) hs]
        constructor <;> rfl

/-- Witness for C7: file configured and present but the document send
fails; the run still yields exactly one delivered reply and returns. -/
theorem C7_exactly_one_reply_witness :
    ((get_material cfgFile 7
        { memberResult := .ok .owner, fileExists := true,
          docSendOk := false, msgSendOk := [true] }).trace.countP
      (fun a => a.ok)) = 1 :=
  (C7_exactly_one_reply cfgFile 7
      { memberResult := .ok .owner, fileExists := true,
        docSendOk := false, msgSendOk := [true] }
      (by decide)).1

/-- Claim C9: the outermost handler catches failures arising after the
membership query as well: a failed reply send in the authorized-text
branch, in the not-subscribed branch, or a failed file-error send after
a failed document send all reach it, and each is converted into a logged
warning plus an attempt to send the cannot-verify reply (with the invite
link when configured). -/
theorem C9_outer_catches_late_failures (cfg : Config) (uid : Int)
    (w : World) :
    (∀ st rest, w.memberResult = .ok st → isAuthorized st = true →
      (truthy cfg.material_file_path && w.fileExists) = false →
      w.msgSendOk = false :: rest →
      get_material cfg uid w =
        { trace := [⟨.message uid (pyOrDefault cfg.material_text defaultMaterialText), false⟩,
            ⟨.message uid (withInviteLink cannotVerifyBase cfg.channel_invite_link), (nextOk rest).1⟩]
          warnings := 1, exceptions := 0, raised := !(nextOk rest).1 }) ∧
    (∀ st rest, w.memberResult = .ok st → isAuthorized st = false →
      w.msgSendOk = false :: rest →
      get_material cfg uid w =
        { trace := [⟨.message uid (withInviteLink notSubscribedBase cfg.channel_invite_link), false⟩,
            ⟨.message uid (withInviteLink cannotVerifyBase cfg.channel_invite_link), (nextOk rest).1⟩]
          warnings := 1, exceptions := 0, raised := !(nextOk rest).1 }) ∧
    (∀ st rest, w.memberResult = .ok st → isAuthorized st = true →
      (truthy cfg.material_file_path && w.fileExists) = true →
      w.docSendOk = false → w.msgSendOk = false :: rest →
      get_material cfg uid w =
        { trace := [⟨.document uid (pathName (cfg.material_file_path.getD ""))
              (pyOrNone cfg.material_text), false⟩,
            ⟨.message uid docFailText, false⟩,
            ⟨.message uid (withInviteLink cannotVerifyBase cfg.channel_invite_link), (nextOk rest).1⟩]
          warnings := 1, exceptions := 1, raised := !(nextOk rest).1 }) := by
  refine ⟨?_, ?_, ?_⟩
  · intro st rest hm hauth hc hL
    simp [get_material, hm, hauth, hc, hL, nextOk, outerHandler]
  · intro st rest hm hauth hL
    simp [get_material, hm, hauth, hL, nextOk, outerHandler]
  · intro st rest hm hauth hc hd hL
    simp [get_material, hm, hauth, hc, hd, hL, nextOk, outerHandler]

/-- Witness for C9: authorized text branch whose reply send fails; the
outer handler logs a warning and successfully sends the cannot-verify
reply. -/
theorem C9_outer_catches_late_failures_witness :
    get_material cfgText 7
        { memberResult := .ok .member, fileExists := false,
          docSendOk := true, msgSendOk := [false, true] } =
      { trace := [⟨.message 7 (pyOrDefault cfgText.material_text defaultMaterialText), false⟩,
          ⟨.message 7 (withInviteLink cannotVerifyBase cfgText.channel_invite_link), (nextOk [true]).1⟩]
        warnings := 1, exceptions := 0, raised := !(nextOk [true]).1 } :=
  (C9_outer_catches_late_failures cfgText 7
      { memberResult := .ok .member, fileExists := false,
        docSendOk := true, msgSendOk := [false, true] }).1
    .member [true] rfl rfl rfl rfl

/-- Sample environment with all required variables set. -/
def envFull : Env :=
  { telegram_bot_token := some "123456:ABCDEF"
    target_chat_id := some "-1001234567890"
    material_text := some "Thanks for subscribing!"
    material_file_path := none
    channel_invite_link := some "https://t.me/your_channel" }

/-- Sample environment whose bot token is set to the empty string. -/
def envEmptyToken : Env :=
  { telegram_bot_token := some ""
    target_chat_id := some "-1001234567890"
    material_text := some "Thanks for subscribing!"
    material_file_path := none
    channel_invite_link := none }

/-- Claim C8: `load_config` returns a configuration exactly when the bot
token is present, the target chat id is present, and at least one of the
material text or the material file path is present (presence in the
Python falsiness sense: set and non-empty, the reading the code applies
and claim C10 makes explicit); in every other case it raises. -/
theorem C8_config_validation (env : Env) :
    (∃ c, load_config env = .ok c) ↔
      (truthy env.telegram_bot_token = true ∧
        truthy env.target_chat_id = true ∧
        (truthy env.material_text = true ∨
          truthy env.material_file_path = true)) := by
  cases h1 : truthy env.telegram_bot_token <;>
    cases h2 : truthy env.target_chat_id <;>
      cases h3 : truthy env.material_text <;>
        cases h4 : truthy env.material_file_path <;>
          simp [load_config, h1, h2, h3, h4]

/-- Witness for C8: the fully populated sample environment loads. -/
theorem C8_config_validation_witness :
    ∃ c, load_config envFull = .ok c :=
  (C8_config_validation envFull).mpr (by decide)

/-- Claim C10: an environment variable set to the empty string behaves
like an unset one — an empty token or an empty target chat id makes
`load_config` raise, and an empty material text does not satisfy the
at-least-one-material requirement. -/
theorem C10_empty_treated_as_absent (env : Env) :
    (env.telegram_bot_token = some "" →
      load_config env = .error errTokenMissing) ∧
    (truthy env.telegram_bot_token = true → env.target_chat_id = some "" →
      load_config env = .error errTargetMissing) ∧
    (truthy env.telegram_bot_token = true →
      truthy env.target_chat_id = true → env.material_text = some "" →
      truthy env.material_file_path = false →
      load_config env = .error errMaterialMissing) := by
  refine ⟨?_, ?_, ?_⟩
  · intro h
    have ht : truthy env.telegram_bot_token = false := by rw [h]; decide
    simp [load_config, ht]
  · intro h1 h2
    have ht : truthy env.target_chat_id = false := by rw [h2]; decide
    simp [load_config, h1, ht]
  · intro h1 h2 h3 h4
    have ht : truthy env.material_text = false := by rw [h3]; decide
    simp [load_config, h1, h2, ht, h4]

/-- Witness for C10: an empty bot token makes loading fail with the
token error even though every other requirement is satisfied. -/
theorem C10_empty_treated_as_absent_witness :
    load_config envEmptyToken = .error errTokenMissing :=
  (C10_empty_treated_as_absent envEmptyToken).1 rfl

end SubscriptionBot
